import Mathlib

/-!
Verification of the NetBox topology-consistency rules described in the
repository specification.  The repository source tree contains only the
Django test suite (dcim/tests/test_models.py) and a CRUD views module;
the model classes themselves (Site, Location, Rack, Device, Module,
Cable, MACAddress, ...) are not part of the tree.  The definitions below
are therefore shallow models reconstructed from the specification's
contracts (sections 3, 4 and 8 of spec.md), with the behaviour pinned
down by the assertions of the test suite where the specification is
silent or ambiguous.  Identifiers are plain natural numbers; rational
numbers stand for the half-unit rack positions.
-/

attribute [local semireducible] Rat.add Rat.mul Rat.inv Rat.sub Rat.ofScientific

namespace NetBox

/-! ## Containment cascade (spec section 4.1)

Sites, Locations, Racks, Devices and PowerPanels form a containment
forest: a Location has an optional parent Location, Racks / Devices /
PowerPanels sit in an optional Location, and a Device may additionally
sit in a Rack.  Saving a Location or Rack whose Site changed propagates
the new Site to every descendant. -/

/-- Modelled from the spec: a Location is a hierarchical container scoped
to one Site, with an optional parent Location (spec section 3). -/
structure Location where
  id : Nat
  site : Nat
  parent : Option Nat
deriving DecidableEq, Repr

/-- Modelled from the spec: a Rack belongs to exactly one Site and
optionally one Location (spec section 3). -/
structure CRack where
  id : Nat
  site : Nat
  location : Option Nat
deriving DecidableEq, Repr

/-- Modelled from the spec: a Device belongs to one Site, optionally one
Rack and one Location (spec section 3). -/
structure CDevice where
  id : Nat
  site : Nat
  location : Option Nat
  rack : Option Nat
deriving DecidableEq, Repr

/-- Modelled from the spec: a PowerPanel belongs to a Site and optionally
a Location (spec section 3). -/
structure PowerPanel where
  id : Nat
  site : Nat
  location : Option Nat
deriving DecidableEq, Repr

/-- The containment state: all Locations, Racks, Devices and PowerPanels. -/
structure TopoState where
  locations : List Location
  racks : List CRack
  devices : List CDevice
  panels : List PowerPanel
deriving DecidableEq, Repr

/-- Parent pointer of a Location, looked up by id. -/
def locParent (locs : List Location) (lid : Nat) : Option Nat :=
  match locs.find? (fun l => decide (l.id = lid)) with
  | some l => l.parent
  | none => none

/-- Fuel-bounded walk up the parent chain: does Location `x` lie in the
subtree rooted at Location `root` (including `root` itself)? -/
def inSubtreeAux (locs : List Location) : Nat → Nat → Nat → Bool
  | 0, root, x => decide (x = root)
  | fuel + 1, root, x =>
    decide (x = root) ||
      match locParent locs x with
      | some p => inSubtreeAux locs fuel root p
      | none => false

/-- Location `x` is `root` itself or a transitive child of `root`. -/
def inSubtree (st : TopoState) (root x : Nat) : Bool :=
  inSubtreeAux st.locations st.locations.length root x

/-- Whether a Rack is transitively contained in the Location subtree. -/
def rackInSubtree (st : TopoState) (root : Nat) (r : CRack) : Bool :=
  match r.location with
  | some lid => inSubtree st root lid
  | none => false

/-- Whether a Device is transitively contained in the Location subtree,
either through its own Location or through its Rack's Location. -/
def deviceInSubtree (st : TopoState) (root : Nat) (d : CDevice) : Bool :=
  (match d.location with
   | some lid => inSubtree st root lid
   | none => false) ||
  (match d.rack with
   | some rid =>
     match st.racks.find? (fun r => decide (r.id = rid)) with
     | some r => rackInSubtree st root r
     | none => false
   | none => false)

/-- Whether a PowerPanel is transitively contained in the Location subtree. -/
def panelInSubtree (st : TopoState) (root : Nat) (p : PowerPanel) : Bool :=
  match p.location with
  | some lid => inSubtree st root lid
  | none => false

/-- Modelled from the spec: saving a Location whose Site changed to `s`
propagates the new Site to every descendant Location, Rack, Device and
PowerPanel transitively, in one atomic step (spec section 4.1). -/
def updateLocationSite (st : TopoState) (root : Nat) (s : Nat) : TopoState :=
  { locations := st.locations.map fun l =>
      if inSubtree st root l.id then { l with site := s } else l
    racks := st.racks.map fun r =>
      if rackInSubtree st root r then { r with site := s } else r
    devices := st.devices.map fun d =>
      if deviceInSubtree st root d then { d with site := s } else d
    panels := st.panels.map fun p =>
      if panelInSubtree st root p then { p with site := s } else p }

/-- Modelled from the spec: saving a Rack whose Site changed to `s`
updates the Rack and propagates the new Site to every Device mounted in
it (spec section 4.1 and test_change_rack_site). -/
def updateRackSite (st : TopoState) (rid : Nat) (s : Nat) : TopoState :=
  { st with
    racks := st.racks.map fun r =>
      if decide (r.id = rid) then { r with site := s } else r
    devices := st.devices.map fun d =>
      if decide (d.rack = some rid) then { d with site := s } else d }

/-- The topology of test_change_location_site: Location 1 is the root,
Location 2 its child; Rack 1 / Device 1 / Panel 1 in Location 1, Rack 2 /
Device 2 in Location 2. -/
def topoExample : TopoState :=
  { locations := [⟨1, 1, none⟩, ⟨2, 1, some 1⟩]
    racks := [⟨1, 1, some 1⟩, ⟨2, 1, some 2⟩]
    devices := [⟨1, 1, some 1, some 1⟩, ⟨2, 1, some 2, none⟩]
    panels := [⟨1, 1, some 1⟩] }

/-! ## Rack space allocator / checker (spec section 4.2)

Rack units are addressed at half-unit resolution.  A rack of height
`u_height` starting at `starting_unit` exposes the units
`starting_unit, starting_unit + 0.5, ..., starting_unit + u_height - 0.5`.
A device occupies the arithmetic sequence from `position` to
`position + u_height - 0.5` stepped by 0.5. -/

/-- A rack mount face. -/
inductive Face
  | front
  | rear
deriving DecidableEq, Repr

/-- Modelled from the spec: the DeviceType attributes the rack allocator
reads (height in units, full-depth flag, utilization-exclusion flag).
The spec does not name the full-depth flag, but test_mount_single_device
requires a device of the default DeviceType (full depth) to appear on
both faces, so the flag is part of the model. -/
structure DeviceType where
  u_height : ℚ
  is_full_depth : Bool
  exclude_from_utilization : Bool
deriving DecidableEq, Repr

/-- A Device as seen by the rack allocator: its type, optional position
(lowest occupied unit) and optional mount face. -/
structure RDevice where
  id : Nat
  device_type : DeviceType
  position : Option ℚ
  face : Option Face
deriving DecidableEq, Repr

/-- A Rack: height in units, starting unit, mounted devices. -/
structure Rack where
  u_height : Nat
  starting_unit : Nat
  devices : List RDevice
deriving DecidableEq, Repr

/-- Number of half-unit steps spanned by a height of `h` units. -/
def halfSteps (h : ℚ) : Nat :=
  (2 * h).floor.toNat

/-- The arithmetic sequence of `n` half-unit steps starting at `start`. -/
def drangeHalf (start : ℚ) (n : Nat) : List ℚ :=
  (List.range n).map fun i => start + (i : ℚ) / 2

/-- All units of a rack, in ascending order. -/
def units (r : Rack) : List ℚ :=
  drangeHalf (r.starting_unit : ℚ) (2 * r.u_height)

/-- Modelled from the spec: a device's occupied set is the arithmetic
sequence from `position` to `position + u_height - 0.5` stepped by 0.5
(spec section 4.2); a device with no position occupies nothing. -/
def occupiedUnits (d : RDevice) : List ℚ :=
  match d.position with
  | none => []
  | some p => drangeHalf p (halfSteps d.device_type.u_height)

/-- Whether a positioned, non-zero-height device shows up on face `f`:
it does when mounted on `f`, or on either face when it is full depth
(behaviour pinned by test_mount_single_device). -/
def visibleOn (d : RDevice) (f : Face) : Bool :=
  d.position.isSome && decide (0 < d.device_type.u_height) &&
    (decide (d.face = some f) || d.device_type.is_full_depth)

/-- One entry of the rack elevation: a unit id and the device occupying
it, if any. -/
structure RackUnit where
  id : ℚ
  device : Option Nat
deriving DecidableEq, Repr

/-- Modelled from the spec: the per-face rack elevation.  Each unit is
paired with the device whose occupied set contains it among the devices
visible on the requested face (spec section 4.2 and
test_mount_single_device). -/
def get_rack_units (r : Rack) (f : Face) : List RackUnit :=
  (units r).map fun u =>
    { id := u
      device := ((r.devices.filter fun d => visibleOn d f).find? fun d =>
          decide (u ∈ occupiedUnits d)).map fun d => d.id }

/-- Modelled from the spec: the units of the rack on which a device of
height `h` could be mounted: units not occupied by any device, with the
whole span of `h` units above them also unoccupied (spec section 4.2 and
test_mount_half_u_devices). -/
def get_available_units (r : Rack) (h : ℚ) : List ℚ :=
  let occupied := r.devices.foldr (fun d acc => occupiedUnits d ++ acc) []
  let free := (units r).filter fun u => decide (u ∉ occupied)
  free.filter fun u => (drangeHalf u (halfSteps h)).all fun v => decide (v ∈ free)

/-- The faces on which a device consumes space: both when full depth,
otherwise only its mount face. -/
def facesOccupied (d : RDevice) : List Face :=
  if d.device_type.is_full_depth then [Face.front, Face.rear]
  else
    match d.face with
    | some f => [f]
    | none => []

/-- Two devices conflict when they consume space on a common face and
their occupied unit sets intersect (spec section 4.2). -/
def conflicts (d e : RDevice) : Bool :=
  (facesOccupied d).any (fun f => decide (f ∈ facesOccupied e)) &&
    (occupiedUnits d).any fun u => decide (u ∈ occupiedUnits e)

/-- Modelled from the spec: a positioned device must start at or above
the rack's starting unit and its span must end within the rack
(spec section 3, device position invariant). -/
def deviceFits (r : Rack) (d : RDevice) : Bool :=
  match d.position with
  | none => true
  | some p =>
    decide ((r.starting_unit : ℚ) ≤ p) &&
      decide (p + d.device_type.u_height ≤ (r.starting_unit : ℚ) + (r.u_height : ℚ))

/-- Modelled from the spec: placement validation for device `d` against
rack `r`: the device must fit inside the rack and must not conflict with
any other mounted device (spec section 4.2). -/
def deviceClean (r : Rack) (d : RDevice) : Bool :=
  deviceFits r d && !(r.devices.any fun e => decide (e.id ≠ d.id) && conflicts d e)

/-- Modelled from the spec: rack validation checks that every mounted
device fits within the rack's height (test_rack_device_outside_height). -/
def rackClean (r : Rack) : Bool :=
  r.devices.all fun d => deviceFits r d

/-- Modelled from the spec: utilization is the sum of occupied units
across all non-excluded positioned devices over the rack height, as a
percentage; excluded devices are omitted entirely (spec section 4.2). -/
def get_utilization (r : Rack) : ℚ :=
  if r.u_height = 0 then 0
  else
    ((r.devices.filter fun d =>
        !d.device_type.exclude_from_utilization && d.position.isSome).map fun d =>
          d.device_type.u_height).sum / (r.u_height : ℚ) * 100

/-- The scenario of test_mount_single_device and claim C2: a 42U rack
holding one 1U full-depth device at position 10 on the front face. -/
def rack42single : Rack :=
  ⟨42, 1, [⟨1, ⟨1, true, false⟩, some 10, some Face.front⟩]⟩

/-- The scenario of test_mount_half_u_devices: two 0.5U devices at
positions 1 and 1.5 on the front face of a 42U rack. -/
def halfDev1 : RDevice := ⟨1, ⟨1 / 2, true, false⟩, some 1, some Face.front⟩

/-- The second half-height device, at position 1.5. -/
def halfDev2 : RDevice := ⟨2, ⟨1 / 2, true, false⟩, some (3 / 2), some Face.front⟩

/-- The 42U rack holding the two half-height devices. -/
def rack42half : Rack := ⟨42, 1, [halfDev1, halfDev2]⟩

/-- The device mounted outside the rack in test_rack_device_outside_height:
1U at position 43 of a 42U rack. -/
def deviceAt43 : RDevice := ⟨1, ⟨1, true, false⟩, some 43, some Face.front⟩

/-- The 42U rack holding the out-of-bounds device. -/
def rack42bad : Rack := ⟨42, 1, [deviceAt43]⟩

/-- The utilization scenario of test_utilization: a 42U rack with one 1U
device at position 1. -/
def rack42util1 : Rack :=
  ⟨42, 1, [⟨1, ⟨1, true, false⟩, some 1, some Face.front⟩]⟩

/-- The second device of test_utilization, excluded from utilization. -/
def excludedDev : RDevice := ⟨2, ⟨1, true, true⟩, some 5, some Face.front⟩

/-- The utilization scenario after adding the excluded device. -/
def rack42util2 : Rack :=
  ⟨42, 1, [excludedDev, ⟨1, ⟨1, true, false⟩, some 1, some Face.front⟩]⟩

/-! ## Module nesting cycle detector (spec section 4.3)

A Module is installed in at most one ModuleBay; a ModuleBay is a
component of at most one Module (or sits directly on a Device).  The two
parent pointers interleave to form a tree, and validation must reject
any assignment that would close a cycle. -/

/-- Modelled from the spec: a Module and the ModuleBay it is installed
in, if any (spec section 3). -/
structure Module where
  id : Nat
  module_bay : Option Nat
deriving DecidableEq, Repr

/-- Modelled from the spec: a ModuleBay and the Module it is a component
of, if any; none when the bay sits directly on a Device (spec section 3). -/
structure ModuleBay where
  id : Nat
  module : Option Nat
deriving DecidableEq, Repr

/-- All Modules and ModuleBays. -/
structure ModState where
  modules : List Module
  bays : List ModuleBay
deriving DecidableEq, Repr

/-- Look up a Module by id. -/
def findModule (st : ModState) (i : Nat) : Option Module :=
  st.modules.find? fun m => decide (m.id = i)

/-- Look up a ModuleBay by id. -/
def findBay (st : ModState) (i : Nat) : Option ModuleBay :=
  st.bays.find? fun b => decide (b.id = i)

/-- The Module a bay is a component of, if any. -/
def bayOwner (st : ModState) (b : Nat) : Option Nat :=
  (findBay st b).bind fun x => x.module

/-- The ModuleBay a module is installed in, if any. -/
def moduleContainer (st : ModState) (m : Nat) : Option Nat :=
  (findModule st m).bind fun x => x.module_bay

/-- Fuel-bounded walk up the ownership chain from bay `bid`
(bay, owner module, its containing bay, ...), returning true when module
`target` is encountered (spec section 4.3). -/
def moduleInAncestry (st : ModState) : Nat → Nat → Nat → Bool
  | 0, _, _ => false
  | fuel + 1, target, bid =>
    match bayOwner st bid with
    | none => false
    | some mid =>
      decide (mid = target) ||
        match moduleContainer st mid with
        | none => false
        | some bid2 => moduleInAncestry st fuel target bid2

/-- Fuel-bounded walk up the ownership chain from module `mid`
(module, containing bay, its owner module, ...), returning true when bay
`target` is encountered (spec section 4.3). -/
def bayInAncestry (st : ModState) : Nat → Nat → Nat → Bool
  | 0, _, _ => false
  | fuel + 1, target, mid =>
    match moduleContainer st mid with
    | none => false
    | some bid =>
      decide (bid = target) ||
        match bayOwner st bid with
        | none => false
        | some mid2 => bayInAncestry st fuel target mid2

/-- Enough fuel to visit every Module and ModuleBay once. -/
def modFuel (st : ModState) : Nat :=
  st.modules.length + st.bays.length + 1

/-- Modelled from the spec: validation of installing module `mid` into
bay `bid` walks the chain from the candidate bay and fails when the
module itself is encountered (spec section 4.3, Module.clean in
test_module_bay_recursion). -/
def moduleClean (st : ModState) (mid bid : Nat) : Bool :=
  !moduleInAncestry st (modFuel st) mid bid

/-- Modelled from the spec: validation of making bay `bid` a component
bay of module `mid` walks the chain from the candidate module and fails
when the bay itself is encountered (spec section 4.3, ModuleBay.clean in
test_module_bay_recursion). -/
def moduleBayClean (st : ModState) (bid mid : Nat) : Bool :=
  !bayInAncestry st (modFuel st) bid mid

/-- Bay `b` lies transitively inside module `m`, by a chain of `n`
ownership hops: the bay's owner module is `m`, or the bay's owner module
is installed in a bay that lies inside `m`. -/
inductive BayInsideModule (st : ModState) : Nat → Nat → Nat → Prop
  | base (b m : Nat) : bayOwner st b = some m → BayInsideModule st 1 b m
  | step (b m₁ b₁ m n : Nat) :
      bayOwner st b = some m₁ → moduleContainer st m₁ = some b₁ →
      BayInsideModule st n b₁ m → BayInsideModule st (n + 1) b m

/-- Module `m` lies transitively inside bay `b`, by a chain of `n`
ownership hops: the module is installed in `b`, or it is installed in a
bay whose owner module lies inside `b`. -/
inductive ModuleInsideBay (st : ModState) : Nat → Nat → Nat → Prop
  | base (m b : Nat) : moduleContainer st m = some b → ModuleInsideBay st 1 m b
  | step (m b₁ m₁ b n : Nat) :
      moduleContainer st m = some b₁ → bayOwner st b₁ = some m₁ →
      ModuleInsideBay st n m₁ b → ModuleInsideBay st (n + 1) m b

/-- The chain of test_module_bay_recursion: M3 in MB3 on M2 in MB2 on M1
in MB1 on the device. -/
def modExample : ModState :=
  { modules := [⟨1, some 1⟩, ⟨2, some 2⟩, ⟨3, some 3⟩]
    bays := [⟨1, none⟩, ⟨2, some 1⟩, ⟨3, some 2⟩] }

/-! ## Cable termination validator (spec section 4.4)

A Cable connects an A side and a B side, each a list of polymorphic
terminations.  Validation rejects empty sides, mixed parents within a
side, mixed or incompatible termination types, virtual / wireless /
cellular interfaces, and CircuitTerminations bound to a ProviderNetwork. -/

/-- The kinds of network interface the cable validator distinguishes. -/
inductive IfaceKind
  | physical
  | virtual
  | wireless
  | cellular
deriving DecidableEq, Repr

/-- Modelled from the spec: the closed set of termination kinds, each
carrying the payload the validator inspects (spec sections 3 and 9). -/
inductive TermKind
  | interface (k : IfaceKind)
  | powerPort
  | powerOutlet
  | frontPort
  | rearPort
  | circuitTermination (providerNetwork : Bool)
deriving DecidableEq, Repr

/-- One cable termination: its parent object (device / circuit) and kind. -/
structure Termination where
  parent : Nat
  kind : TermKind
deriving DecidableEq, Repr

/-- The model type of a termination, used for type uniformity and the
compatibility table. -/
def termClass : TermKind → Nat
  | .interface _ => 0
  | .powerPort => 1
  | .powerOutlet => 2
  | .frontPort => 3
  | .rearPort => 4
  | .circuitTermination _ => 5

/-- Modelled from the spec: the allow-list of compatible termination
type pairs.  The spec fixes the contract (an allow-list, with
interface-to-interface allowed and interface-to-power-port absent,
spec section 4.4); the remaining pairs are reconstructed from the
standard copper/fiber and power pairings the tests exercise. -/
def compatiblePairs : List (Nat × Nat) :=
  [(0, 0), (0, 3), (0, 4), (0, 5), (3, 0), (4, 0), (5, 0),
   (3, 3), (3, 4), (4, 3), (4, 4), (3, 5), (5, 3), (4, 5), (5, 4), (5, 5),
   (1, 2), (2, 1), (1, 5), (5, 1), (2, 5), (5, 2)]

/-- Whether two termination model types may be cabled together. -/
def compatible (x y : Nat) : Bool :=
  decide ((x, y) ∈ compatiblePairs)

/-- A termination no cable may use: a virtual, wireless or cellular
interface, or a CircuitTermination bound to a ProviderNetwork. -/
def badTermination (t : Termination) : Bool :=
  match t.kind with
  | .interface .virtual => true
  | .interface .wireless => true
  | .interface .cellular => true
  | .circuitTermination pn => pn
  | _ => false

/-- All terminations of one side share the first one's parent object. -/
def sideSameParent (ts : List Termination) : Bool :=
  match ts with
  | [] => true
  | t :: rest => rest.all fun u => decide (u.parent = t.parent)

/-- All terminations of one side share the first one's model type. -/
def sideUniform (ts : List Termination) : Bool :=
  match ts with
  | [] => true
  | t :: rest => rest.all fun u => decide (termClass u.kind = termClass t.kind)

/-- The two sides' model types are on the compatibility allow-list. -/
def sidesCompatible (a b : List Termination) : Bool :=
  match a, b with
  | ta :: _, tb :: _ => compatible (termClass ta.kind) (termClass tb.kind)
  | _, _ => true

/-- Modelled from the spec: Cable.clean: both sides non-empty, one
parent per side, uniform and compatible termination types, and no
disallowed termination anywhere (spec section 4.4). -/
def cableClean (a b : List Termination) : Bool :=
  !a.isEmpty && !b.isEmpty &&
    sideSameParent a && sideSameParent b &&
    sideUniform a && sideUniform b &&
    sidesCompatible a b &&
    ((a ++ b).all fun t => !badTermination t)

/-- Modelled from the spec: a Cable's persisted primary key together
with the remembered key its label keeps using after deletion
(spec section 4.4). -/
structure Cable where
  pk : Option Nat
  rememberedPk : Option Nat
deriving DecidableEq, Repr

/-- A cable termination as the deletion path sees it: its id, the cable
it references and its cached link peers. -/
structure CTermination where
  id : Nat
  cable : Option Nat
  link_peers : List Nat
deriving DecidableEq, Repr

/-- The string representation of a Cable: a hash sign followed by the
remembered primary key. -/
def cableStr (c : Cable) : String :=
  "#" ++
    match c.rememberedPk with
    | some n => Nat.repr n
    | none => "None"

/-- Modelled from the spec: deleting a Cable clears the cable reference
and the link-peer cache of every termination referencing it and clears
the cable's primary key, keeping the remembered key (spec section 4.4,
test_cable_deletion). -/
def deleteCable (c : Cable) (terms : List CTermination) :
    Cable × List CTermination :=
  ({ c with pk := none },
   terms.map fun t =>
     if decide (t.cable = c.pk) && c.pk.isSome then
       { t with cable := none, link_peers := [] }
     else t)

/-- Case lowering of a string, character by character (the model of
Python str.lower on the ASCII names the tests use). -/
def lowerStr (s : String) : String :=
  String.mk (s.data.map Char.toLower)

/-- Whether `msg` starts with the words `pre` (the model of Django's
assertRaisesMessage containment check, which the tests use with a
message prefix). -/
def msgStarts (pre msg : String) : Bool :=
  pre.data.isPrefixOf msg.data

/-- The cable of test_cable_deletion, saved with primary key 1. -/
def cableExample : Cable := ⟨some 1, some 1⟩

/-- The two interfaces connected by the cable of test_cable_deletion. -/
def cableTerms : List CTermination := [⟨10, some 1, [20]⟩, ⟨20, some 1, [10]⟩]

/-! ## Primary MAC address guard (spec section 4.5) -/

/-- The validation message raised when unassigning a primary MACAddress. -/
def primaryMacError : String :=
  "Cannot unassign MAC Address while it is designated as the primary MAC address of its assigned object"

/-- A network interface and the MACAddress it designates as primary. -/
structure NetIface where
  id : Nat
  primary_mac_address : Option Nat
deriving DecidableEq, Repr

/-- A MACAddress and the interface it is assigned to, if any. -/
structure MACAddress where
  id : Nat
  assigned_object : Option Nat
deriving DecidableEq, Repr

/-- Modelled from the spec: before clearing a MACAddress's assignment,
check whether it is its assigned object's primary MAC address; fail with
a message if so, allow otherwise (spec section 4.5). -/
def macClean (ifaces : List NetIface) (mac : MACAddress)
    (newAssigned : Option Nat) : Except String Unit :=
  match mac.assigned_object, newAssigned with
  | some i, none =>
    match ifaces.find? fun f => decide (f.id = i) with
    | some f =>
      if f.primary_mac_address = some mac.id then Except.error primaryMacError
      else Except.ok ()
    | none => Except.ok ()
  | _, _ => Except.ok ()

/-! ## Device name uniqueness (test_device_name_case_sensitivity,
test_multiple_unnamed_devices, test_device_duplicate_names) -/

/-- A Device as the name-uniqueness validation sees it. -/
structure DDevice where
  id : Nat
  name : Option String
  site : Nat
  tenant : Option Nat
deriving DecidableEq, Repr

/-- Modelled from the spec: name-uniqueness validation for a Device: a
named device fails when another device with the same site and tenant
scope carries the same name compared case-insensitively; a device with a
null name always passes. -/
def deviceNameClean (existing : List DDevice) (d : DDevice) : Bool :=
  match d.name with
  | none => true
  | some n =>
    !(existing.any fun e =>
      decide (e.id ≠ d.id) && decide (e.site = d.site) &&
        decide (e.tenant = d.tenant) &&
        decide (e.name.map lowerStr = some (lowerStr n)))

end NetBox

open NetBox

/-- The upward walk from a bay finds every module the bay transitively
lies inside, given enough fuel for the chain. -/
theorem moduleInAncestry_of_chain (st : ModState) :
    ∀ n b m fuel, BayInsideModule st n b m → n ≤ fuel →
      moduleInAncestry st fuel m b = true := by
  intro n b m fuel h
  induction h generalizing fuel with
  | base b m hb =>
    intro hle
    cases fuel with
    | zero => omega
    | succ k => simp [moduleInAncestry, hb]
  | step b m₁ b₁ m n hb hc _ ih =>
    intro hle
    cases fuel with
    | zero => omega
    | succ k =>
      have hk : n ≤ k := by omega
      simp [moduleInAncestry, hb, hc, ih k hk]

/-- The upward walk from a module finds every bay the module transitively
lies inside, given enough fuel for the chain. -/
theorem bayInAncestry_of_chain (st : ModState) :
    ∀ n m b fuel, ModuleInsideBay st n m b → n ≤ fuel →
      bayInAncestry st fuel b m = true := by
  intro n m b fuel h
  induction h generalizing fuel with
  | base m b hm =>
    intro hle
    cases fuel with
    | zero => omega
    | succ k => simp [bayInAncestry, hm]
  | step m b₁ m₁ b n hm ho _ ih =>
    intro hle
    cases fuel with
    | zero => omega
    | succ k =>
      have hk : n ≤ k := by omega
      simp [bayInAncestry, hm, ho, ih k hk]

/-- C1: after updating a Location's Site (and after updating a Rack's
Site), every descendant Location, Rack, Device and PowerPanel transitively
contained in it has its Site equal to the new Site. -/
theorem site_cascade_reaches_all_descendants (st : TopoState) (root s rid : Nat) :
    (∀ l ∈ (updateLocationSite st root s).locations,
      inSubtree st root l.id = true → l.site = s) ∧
    (∀ r ∈ (updateLocationSite st root s).racks,
      rackInSubtree st root r = true → r.site = s) ∧
    (∀ d ∈ (updateLocationSite st root s).devices,
      deviceInSubtree st root d = true → d.site = s) ∧
    (∀ p ∈ (updateLocationSite st root s).panels,
      panelInSubtree st root p = true → p.site = s) ∧
    (∀ r ∈ (updateRackSite st rid s).racks, r.id = rid → r.site = s) ∧
    (∀ d ∈ (updateRackSite st rid s).devices, d.rack = some rid → d.site = s) := by
  refine ⟨?_, ?_, ?_, ?_, ?_, ?_⟩
  · intro l hl hin
    simp only [updateLocationSite, List.mem_map] at hl
    obtain ⟨l0, _, rfl⟩ := hl
    by_cases h : inSubtree st root l0.id = true
    · simp [h]
    · simp only [h, if_false] at hin ⊢
      exact absurd hin h
  · intro r hr hin
    simp only [updateLocationSite, List.mem_map] at hr
    obtain ⟨r0, _, rfl⟩ := hr
    by_cases h : rackInSubtree st root r0 = true
    · simp [h]
    · simp only [h, if_false] at hin ⊢
      exact absurd hin h
  · intro d hd hin
    simp only [updateLocationSite, List.mem_map] at hd
    obtain ⟨d0, _, rfl⟩ := hd
    by_cases h : deviceInSubtree st root d0 = true
    · simp [h]
    · simp only [h, if_false] at hin ⊢
      exact absurd hin h
  · intro p hp hin
    simp only [updateLocationSite, List.mem_map] at hp
    obtain ⟨p0, _, rfl⟩ := hp
    by_cases h : panelInSubtree st root p0 = true
    · simp [h]
    · simp only [h, if_false] at hin ⊢
      exact absurd hin h
  · intro r hr hin
    simp only [updateRackSite, List.mem_map] at hr
    obtain ⟨r0, _, rfl⟩ := hr
    by_cases h : r0.id = rid
    · simp [h]
    · rw [if_neg (by simp [h])] at hin ⊢
      exact absurd hin h
  · intro d hd hin
    simp only [updateRackSite, List.mem_map] at hd
    obtain ⟨d0, _, rfl⟩ := hd
    by_cases h : d0.rack = some rid
    · simp [h]
    · rw [if_neg (by simp [h])] at hin ⊢
      exact absurd hin h

/-- Witness for C1 on the test topology: the child Location 2 and the
Device in it end up in Site 2 after moving Location 1 to Site 2, and the
Device in Rack 1 ends up in Site 2 after moving Rack 1 to Site 2. -/
theorem site_cascade_reaches_all_descendants_witness :
    (Location.mk 2 2 (some 1) ∈ (updateLocationSite topoExample 1 2).locations ∧
      (Location.mk 2 2 (some 1)).site = 2) ∧
    (CDevice.mk 2 2 (some 2) none ∈ (updateLocationSite topoExample 1 2).devices ∧
      (CDevice.mk 2 2 (some 2) none).site = 2) ∧
    (CDevice.mk 1 2 (some 1) (some 1) ∈ (updateRackSite topoExample 1 2).devices ∧
      (CDevice.mk 1 2 (some 1) (some 1)).site = 2) :=
  have hml : Location.mk 2 2 (some 1) ∈ (updateLocationSite topoExample 1 2).locations := by
    decide
  have hmd : CDevice.mk 2 2 (some 2) none ∈ (updateLocationSite topoExample 1 2).devices := by
    decide
  have hmr : CDevice.mk 1 2 (some 1) (some 1) ∈ (updateRackSite topoExample 1 2).devices := by
    decide
  ⟨⟨hml, (site_cascade_reaches_all_descendants topoExample 1 2 1).1 _ hml (by decide)⟩,
   ⟨hmd, (site_cascade_reaches_all_descendants topoExample 1 2 1).2.2.1 _ hmd (by decide)⟩,
   ⟨hmr, (site_cascade_reaches_all_descendants topoExample 1 2 1).2.2.2.2.2 _ hmr (by decide)⟩⟩

/-- C2 counterexample: in the 42U rack holding one 1U full-depth device
at position 10.0 on the front face, the rear-face elevation reports unit
10.0 as occupied by that device, not free as the claim states. -/
theorem rear_face_unit_ten_not_free :
    ((get_rack_units rack42single Face.rear).find? fun u => decide (u.id = 10)) =
      some { id := 10, device := some 1 } := by
  decide

/-- C2 amended: with one 1U device of the default (full-depth) DeviceType
at position 10.0, both the front-face and the rear-face elevations mark
half-units 10.0 and 10.5 as occupied by that device and every other unit
as free; the elevation covers all 2 * u_height half-units. -/
theorem rack_units_front_and_rear :
    (((get_rack_units rack42single Face.front).all fun u =>
        decide (u.device = if u.id = 10 ∨ u.id = 21 / 2 then some 1 else none)) = true) ∧
    (((get_rack_units rack42single Face.rear).all fun u =>
        decide (u.device = if u.id = 10 ∨ u.id = 21 / 2 then some 1 else none)) = true) ∧
    (get_rack_units rack42single Face.front).length = 2 * rack42single.u_height := by
  refine ⟨by decide, by decide, by decide⟩

/-- C3: two 0.5U devices at positions 1 and 1.5 of the same 42U rack both
pass placement validation, and the count of available units for a 1U
device equals u_height * 2 - 3. -/
theorem half_u_devices_share_a_unit :
    deviceClean rack42half halfDev1 = true ∧
    deviceClean rack42half halfDev2 = true ∧
    (get_available_units rack42half 1).length = rack42half.u_height * 2 - 3 := by
  refine ⟨by decide, by decide, by decide⟩

/-- C4: a device whose occupied span ends beyond the top of its rack
makes rack validation fail. -/
theorem device_outside_rack_height_fails (r : Rack) (d : RDevice) (p : ℚ)
    (hd : d ∈ r.devices) (hp : d.position = some p)
    (hspan : (r.starting_unit : ℚ) + (r.u_height : ℚ) < p + d.device_type.u_height) :
    rackClean r = false := by
  have hnle : ¬(p + d.device_type.u_height ≤ (r.starting_unit : ℚ) + (r.u_height : ℚ)) :=
    not_le.mpr hspan
  have hfit : deviceFits r d = false := by
    simp only [deviceFits, hp]
    simp [hnle]
  cases hcl : rackClean r with
  | false => rfl
  | true =>
    have hall := List.all_eq_true.mp hcl d hd
    rw [hfit] at hall
    exact absurd hall (by decide)

/-- Witness for C4: the 42U rack holding a 1U device at position 43 fails
rack validation. -/
theorem device_outside_rack_height_fails_witness : rackClean rack42bad = false :=
  device_outside_rack_height_fails rack42bad deviceAt43 43 (by decide) (by decide) (by decide)

/-- C9: the 42U rack with exactly one 1U device has utilization
1 / 42 * 100, and prepending any device whose type is excluded from
utilization leaves any rack's utilization unchanged. -/
theorem utilization_ignores_excluded_devices (r : Rack) (d : RDevice)
    (hx : d.device_type.exclude_from_utilization = true) :
    get_utilization rack42util1 = 1 / 42 * 100 ∧
    get_utilization ⟨r.u_height, r.starting_unit, d :: r.devices⟩ =
      get_utilization r := by
  constructor
  · decide
  · simp [get_utilization, List.filter_cons, hx]

/-- Witness for C9: adding the excluded 1U device of test_utilization to
the one-device rack leaves the utilization unchanged. -/
theorem utilization_ignores_excluded_devices_witness :
    excludedDev.device_type.exclude_from_utilization = true ∧
    get_utilization rack42util2 = get_utilization rack42util1 :=
  ⟨by decide, (utilization_ignores_excluded_devices rack42util1 excludedDev (by decide)).2⟩

/-- C5: installing a Module into a ModuleBay that lies transitively
inside that Module fails validation, and symmetrically, attaching a
ModuleBay onto a Module that lies transitively inside that ModuleBay
fails validation, for cycles of any length. -/
theorem module_bay_cycle_rejected (st : ModState) (n mid bid : Nat) :
    (BayInsideModule st n bid mid → n ≤ modFuel st → moduleClean st mid bid = false) ∧
    (ModuleInsideBay st n mid bid → n ≤ modFuel st → moduleBayClean st bid mid = false) := by
  constructor
  · intro h hle
    have hw := moduleInAncestry_of_chain st n bid mid (modFuel st) h hle
    simp [moduleClean, hw]
  · intro h hle
    have hw := bayInAncestry_of_chain st n mid bid (modFuel st) h hle
    simp [moduleBayClean, hw]

/-- Witness for C5 on the chain of test_module_bay_recursion: installing
Module 1 into ModuleBay 3 fails, and attaching ModuleBay 1 onto Module 3
fails. -/
theorem module_bay_cycle_rejected_witness :
    moduleClean modExample 1 3 = false ∧ moduleBayClean modExample 1 3 = false :=
  have h1 : BayInsideModule modExample 2 3 1 :=
    .step 3 2 2 1 1 rfl rfl (.base 2 1 rfl)
  have h2 : ModuleInsideBay modExample 3 3 1 :=
    .step 3 3 2 1 2 rfl rfl (.step 2 2 1 1 1 rfl rfl (.base 1 1 rfl))
  ⟨(module_bay_cycle_rejected modExample 2 1 3).1 h1 (by decide),
   (module_bay_cycle_rejected modExample 3 3 1).2 h2 (by decide)⟩

/-- Every termination of a parent-uniform side has the head's parent. -/
theorem parent_eq_head (x t : Termination) (xs : List Termination)
    (hu : sideSameParent (x :: xs) = true) (ht : t ∈ x :: xs) :
    t.parent = x.parent := by
  rcases List.mem_cons.mp ht with h | h
  · rw [h]
  · have hh : ∀ y ∈ xs, y.parent = x.parent := by simpa [sideSameParent] using hu
    exact hh t h

/-- Every termination of a type-uniform side has the head's model type. -/
theorem termClass_eq_head (x t : Termination) (xs : List Termination)
    (hu : sideUniform (x :: xs) = true) (ht : t ∈ x :: xs) :
    termClass t.kind = termClass x.kind := by
  rcases List.mem_cons.mp ht with h | h
  · rw [h]
  · have hh : ∀ y ∈ xs, termClass y.kind = termClass x.kind := by
      simpa [sideUniform] using hu
    exact hh t h

/-- A cable containing any disallowed termination fails validation. -/
theorem cableClean_false_of_bad (a b : List Termination) (t : Termination)
    (hmem : t ∈ a ∨ t ∈ b) (hbad : badTermination t = true) :
    cableClean a b = false := by
  by_cases hall : ((a ++ b).all fun x => !badTermination x) = true
  · have hx := List.all_eq_true.mp hall t (List.mem_append.mpr hmem)
    rw [hbad] at hx
    exact absurd hx (by decide)
  · rw [Bool.not_eq_true] at hall
    simp [cableClean, hall]

/-- C6: cable validation rejects an Interface cabled to a PowerPort,
a side whose terminations have two different parents, a termination on a
CircuitTermination bound to a ProviderNetwork, and a termination on a
virtual, wireless or cellular interface. -/
theorem cable_clean_rejects_invalid (a b : List Termination) (t u : Termination)
    (k : IfaceKind) :
    (t ∈ a → u ∈ b → t.kind = TermKind.interface k → u.kind = TermKind.powerPort →
      cableClean a b = false) ∧
    (t ∈ a → u ∈ a → t.parent ≠ u.parent → cableClean a b = false) ∧
    (t ∈ a ∨ t ∈ b → t.kind = TermKind.circuitTermination true → cableClean a b = false) ∧
    (t ∈ a ∨ t ∈ b → t.kind = TermKind.interface k → k ≠ IfaceKind.physical →
      cableClean a b = false) := by
  refine ⟨?_, ?_, ?_, ?_⟩
  · intro hta htb hka hkb
    by_cases hua : sideUniform a = true
    · by_cases hub : sideUniform b = true
      · obtain ⟨xa, as, rfl⟩ := List.exists_cons_of_ne_nil (List.ne_nil_of_mem hta)
        obtain ⟨xb, bs, rfl⟩ := List.exists_cons_of_ne_nil (List.ne_nil_of_mem htb)
        have hca : termClass xa.kind = 0 := by
          have hh := termClass_eq_head xa t as hua hta
          rw [hka] at hh
          exact hh.symm
        have hcb : termClass xb.kind = 1 := by
          have hh := termClass_eq_head xb u bs hub htb
          rw [hkb] at hh
          exact hh.symm
        have hcomp : sidesCompatible (xa :: as) (xb :: bs) = false := by
          show compatible (termClass xa.kind) (termClass xb.kind) = false
          rw [hca, hcb]
          decide
        simp [cableClean, hcomp]
      · rw [Bool.not_eq_true] at hub
        simp [cableClean, hub]
    · rw [Bool.not_eq_true] at hua
      simp [cableClean, hua]
  · intro hta hua hne
    by_cases hsp : sideSameParent a = true
    · obtain ⟨xa, as, rfl⟩ := List.exists_cons_of_ne_nil (List.ne_nil_of_mem hta)
      exact absurd
        ((parent_eq_head xa t as hsp hta).trans (parent_eq_head xa u as hsp hua).symm) hne
    · rw [Bool.not_eq_true] at hsp
      simp [cableClean, hsp]
  · intro hmem hk
    exact cableClean_false_of_bad a b t hmem (by simp [badTermination, hk])
  · intro hmem hk hphys
    refine cableClean_false_of_bad a b t hmem ?_
    cases k with
    | physical => exact absurd rfl hphys
    | virtual => simp [badTermination, hk]
    | wireless => simp [badTermination, hk]
    | cellular => simp [badTermination, hk]

/-- Witness for C6: the four rejection scenarios of the cable tests, at
concrete terminations. -/
theorem cable_clean_rejects_invalid_witness :
    cableClean [⟨1, .interface .physical⟩] [⟨2, .powerPort⟩] = false ∧
    cableClean [⟨1, .interface .physical⟩, ⟨2, .interface .physical⟩]
      [⟨3, .interface .physical⟩] = false ∧
    cableClean [⟨1, .interface .physical⟩] [⟨3, .circuitTermination true⟩] = false ∧
    cableClean [⟨1, .interface .physical⟩] [⟨4, .interface .virtual⟩] = false :=
  ⟨(cable_clean_rejects_invalid [⟨1, .interface .physical⟩] [⟨2, .powerPort⟩]
      ⟨1, .interface .physical⟩ ⟨2, .powerPort⟩ IfaceKind.physical).1
      (by decide) (by decide) rfl rfl,
   (cable_clean_rejects_invalid [⟨1, .interface .physical⟩, ⟨2, .interface .physical⟩]
      [⟨3, .interface .physical⟩] ⟨1, .interface .physical⟩ ⟨2, .interface .physical⟩
      IfaceKind.physical).2.1 (by decide) (by decide) (by decide),
   (cable_clean_rejects_invalid [⟨1, .interface .physical⟩] [⟨3, .circuitTermination true⟩]
      ⟨3, .circuitTermination true⟩ ⟨3, .circuitTermination true⟩ IfaceKind.physical).2.2.1
      (Or.inr (by decide)) rfl,
   (cable_clean_rejects_invalid [⟨1, .interface .physical⟩] [⟨4, .interface .virtual⟩]
      ⟨4, .interface .virtual⟩ ⟨4, .interface .virtual⟩ IfaceKind.virtual).2.2.2
      (Or.inr (by decide)) rfl (by decide)⟩

/-- The decimal digit printer never emits a capital N. -/
theorem digitChar_ne_capital_N (n : Nat) : Nat.digitChar n ≠ 'N' := by
  rcases Nat.lt_or_ge n 16 with h | h
  · interval_cases n <;> decide
  · have hstar : Nat.digitChar n = '*' := by
      unfold Nat.digitChar
      repeat rw [if_neg (by omega)]
    rw [hstar]
    decide

/-- The characters accumulated by the decimal printer are never a
capital N, provided the accumulator has none. -/
theorem toDigitsCore_ne_capital_N :
    ∀ (fuel n : Nat) (ds : List Char), (∀ c ∈ ds, c ≠ 'N') →
      ∀ c ∈ Nat.toDigitsCore 10 fuel n ds, c ≠ 'N' := by
  intro fuel
  induction fuel with
  | zero =>
    intro n ds hds c hc
    exact hds c (by simpa [Nat.toDigitsCore] using hc)
  | succ k ih =>
    intro n ds hds c hc
    simp only [Nat.toDigitsCore] at hc
    split at hc
    · rcases List.mem_cons.mp hc with h | h
      · rw [h]
        exact digitChar_ne_capital_N _
      · exact hds c h
    · refine ih (n / 10) _ ?_ c hc
      intro x hx
      rcases List.mem_cons.mp hx with h | h
      · rw [h]
        exact digitChar_ne_capital_N _
      · exact hds x h

/-- The decimal representation of a natural number is never "None". -/
theorem natRepr_ne_None (n : Nat) : Nat.repr n ≠ "None" := by
  intro h
  have hdata : Nat.toDigits 10 n = ['N', 'o', 'n', 'e'] := congrArg String.data h
  have hN : 'N' ∈ Nat.toDigits 10 n := by
    rw [hdata]
    exact List.mem_cons_self _ _
  exact toDigitsCore_ne_capital_N (n + 1) n [] (fun c hc => absurd hc (List.not_mem_nil c))
    'N' (by simpa [Nat.toDigits] using hN) rfl

/-- A cable whose remembered primary key is a number renders as a hash
sign followed by that number, never as the hash of None. -/
theorem cableStr_keeps_pk (c : Cable) (n : Nat) (h : c.rememberedPk = some n) :
    cableStr c = "#" ++ Nat.repr n ∧ cableStr c ≠ "#None" := by
  have h1 : cableStr c = "#" ++ Nat.repr n := by
    simp [cableStr, h]
  refine ⟨h1, ?_⟩
  rw [h1]
  intro heq
  have hd := congrArg String.data heq
  rw [String.data_append] at hd
  have hd2 : '#' :: (Nat.repr n).data = ['#', 'N', 'o', 'n', 'e'] := hd
  have hd3 : (Nat.repr n).data = ['N', 'o', 'n', 'e'] := by
    injection hd2
  exact natRepr_ne_None n (String.ext hd3)

/-- C7: deleting a Cable clears its primary key, clears the cable
reference and link peers of every termination that referenced it, and
the deleted Cable still renders its former numeric identifier, never the
hash of None. -/
theorem cable_deletion_clears_references (c : Cable) (terms : List CTermination)
    (t : CTermination) (n : Nat)
    (hpk : c.pk = some n) (hrem : c.rememberedPk = some n)
    (ht : t ∈ terms) (hc : t.cable = some n) :
    (deleteCable c terms).1.pk = none ∧
    CTermination.mk t.id none [] ∈ (deleteCable c terms).2 ∧
    cableStr (deleteCable c terms).1 = "#" ++ Nat.repr n ∧
    cableStr (deleteCable c terms).1 ≠ "#None" := by
  have hstr := cableStr_keeps_pk (deleteCable c terms).1 n hrem
  refine ⟨rfl, ?_, hstr.1, hstr.2⟩
  have hft : (fun x : CTermination =>
      if decide (x.cable = c.pk) && (c.pk).isSome then
        { x with cable := none, link_peers := [] }
      else x) t = CTermination.mk t.id none [] := by
    simp [hc, hpk]
  exact hft ▸ List.mem_map_of_mem _ ht

/-- Witness for C7: deleting the saved cable clears interface 10's
reference and peers, and the cable still renders as its old label. -/
theorem cable_deletion_clears_references_witness :
    (deleteCable cableExample cableTerms).1.pk = none ∧
    CTermination.mk 10 none [] ∈ (deleteCable cableExample cableTerms).2 ∧
    cableStr (deleteCable cableExample cableTerms).1 = "#" ++ Nat.repr 1 ∧
    cableStr (deleteCable cableExample cableTerms).1 ≠ "#None" :=
  cable_deletion_clears_references cableExample cableTerms ⟨10, some 1, [20]⟩ 1
    rfl rfl (by decide) rfl

/-- C8: clearing a MACAddress's assignment fails with a message starting
with the words the test checks for exactly when the MACAddress is its
assigned object's primary MAC address; clearing a non-primary
MACAddress's assignment succeeds. -/
theorem mac_unassign_guard (ifaces : List NetIface) (mac : MACAddress)
    (i : Nat) (f : NetIface)
    (hma : mac.assigned_object = some i)
    (hf : (ifaces.find? fun g => decide (g.id = i)) = some f) :
    ((∃ msg, macClean ifaces mac none = Except.error msg ∧
        msgStarts "Cannot unassign MAC Address while" msg = true) ↔
      f.primary_mac_address = some mac.id) ∧
    (f.primary_mac_address ≠ some mac.id → macClean ifaces mac none = Except.ok ()) := by
  have hcl : macClean ifaces mac none =
      if f.primary_mac_address = some mac.id then Except.error primaryMacError
      else Except.ok () := by
    simp [macClean, hma, hf]
  by_cases hp : f.primary_mac_address = some mac.id
  · rw [hcl, if_pos hp]
    refine ⟨⟨fun _ => hp, fun _ => ⟨primaryMacError, rfl, by decide⟩⟩, fun hn => absurd hp hn⟩
  · rw [hcl, if_neg hp]
    refine ⟨⟨?_, fun h => absurd h hp⟩, fun _ => rfl⟩
    rintro ⟨msg, hmsg, _⟩
    cases hmsg

/-- Witness for C8: with interface 1 designating MAC 5 as primary,
clearing MAC 5's assignment fails with the expected message, while with
interface 1 designating MAC 6, clearing MAC 5's assignment succeeds. -/
theorem mac_unassign_guard_witness :
    (∃ msg, macClean [⟨1, some 5⟩] ⟨5, some 1⟩ none = Except.error msg ∧
        msgStarts "Cannot unassign MAC Address while" msg = true) ∧
    macClean [⟨1, some 6⟩] ⟨5, some 1⟩ none = Except.ok () :=
  ⟨(mac_unassign_guard [⟨1, some 5⟩] ⟨5, some 1⟩ 1 ⟨1, some 5⟩ rfl (by decide)).1.mpr rfl,
   (mac_unassign_guard [⟨1, some 6⟩] ⟨5, some 1⟩ 1 ⟨1, some 6⟩ rfl (by decide)).2 (by decide)⟩

/-- C10: device-name uniqueness validation ignores case and ignores
devices with a null name: a device with no name always passes, and a
named device fails when another device in the same site and tenant scope
carries the same name up to case. -/
theorem device_name_validation (existing : List DDevice) (d e : DDevice) (n m : String) :
    (d.name = none → deviceNameClean existing d = true) ∧
    (e ∈ existing → e.id ≠ d.id → e.site = d.site → e.tenant = d.tenant →
      d.name = some n → e.name = some m → lowerStr m = lowerStr n →
      deviceNameClean existing d = false) := by
  constructor
  · intro h
    simp [deviceNameClean, h]
  · intro he hid hsite hten hdn hen hlow
    have hany : (existing.any fun x =>
        decide (x.id ≠ d.id) && decide (x.site = d.site) &&
          decide (x.tenant = d.tenant) &&
          decide (x.name.map lowerStr = some (lowerStr n))) = true :=
      List.any_eq_true.mpr ⟨e, he, by simp [hid, hsite, hten, hen, hlow]⟩
    simp only [deviceNameClean, hdn, hany, Bool.not_true]

/-- Witness for C10: a device named DEVICE 1 fails validation against an
existing device 1 in the same site with no tenant, while a second
unnamed device passes validation alongside an existing unnamed one. -/
theorem device_name_validation_witness :
    deviceNameClean [⟨1, some "device 1", 1, none⟩] ⟨2, some "DEVICE 1", 1, none⟩ = false ∧
    deviceNameClean [⟨1, none, 1, none⟩] ⟨2, none, 1, none⟩ = true :=
  ⟨(device_name_validation [⟨1, some "device 1", 1, none⟩] ⟨2, some "DEVICE 1", 1, none⟩
      ⟨1, some "device 1", 1, none⟩ "DEVICE 1" "device 1").2
      (by decide) (by decide) rfl rfl rfl rfl (by decide),
   (device_name_validation [⟨1, none, 1, none⟩] ⟨2, none, 1, none⟩
      ⟨1, none, 1, none⟩ "x" "x").1 rfl⟩
